import Mathlib

/-!
# Verification of the ozstar-jobsummary core

Shallow embedding of `src/summary.py` (class `JobSummary`) and
`src/memory.py` into Lean 4, with theorems checking the specified
behaviour of identifier resolution, data-source selection, derived
metrics, warning generation and report framing.

Numeric data is modelled with `ℚ` (Python ints/floats; the program does
exact small-integer arithmetic and divisions whose rounding is not at
issue).  Python `None` is `Option.none`; a raised exception
(`ZeroDivisionError`, `IndexError`, `KeyError`) is `Except.error`.
External collaborators (`pyslurm`, the InfluxDB client, the formatting
helpers in `utils.py`, which are not part of the repository) appear as
function parameters or oracles; the logic of the repository's own code is
translated line by line.
-/

/-- Decidable equality for `Except`, so that concrete runs of the
fallible embedded functions can be checked by `decide`. -/
instance {ε α : Type} [DecidableEq ε] [DecidableEq α] :
    DecidableEq (Except ε α)
  | Except.error e, Except.error f =>
    if h : e = f then
      Decidable.isTrue (by rw [h])
    else
      Decidable.isFalse (by intro hc; injection hc; exact h (by assumption))
  | Except.error _, Except.ok _ => Decidable.isFalse (by intro hc; injection hc)
  | Except.ok _, Except.error _ => Decidable.isFalse (by intro hc; injection hc)
  | Except.ok a, Except.ok b =>
    if h : a = b then
      Decidable.isTrue (by rw [h])
    else
      Decidable.isFalse (by intro hc; injection hc; exact h (by assumption))

/-- `UNFINISHED_STATES` from `summary.py`. -/
def UNFINISHED_STATES : List String :=
  ["PENDING", "RUNNING", "REQUEUED", "RESIZING", "SUSPENDED"]

/-- `self.finished = self.db_data.state not in UNFINISHED_STATES`. -/
def finishedOf (state : String) : Bool :=
  !(UNFINISHED_STATES.contains state)

/-- Nested result structure returned by the metrics gateway's
`get_lustre_jobstats`: Python nested dicts
`data[fs][server][field]["value"] -> list of samples`, modelled as
insertion-ordered association lists. -/
abbrev FieldMap := List (String × List ℚ)
abbrev ServerMap := List (String × FieldMap)
abbrev FsMap := List (String × ServerMap)
abbrev NestedData := List (String × FsMap)

/-- Python dict lookup `d[k]` as an option (first matching key). -/
def alookup {α : Type} (d : List (String × α)) (k : String) : Option α :=
  (d.find? (fun p => p.1 = k)).map (fun p => p.2)

/-- The metrics-gateway capability (`influxquery` argument of
`JobSummary.__init__`): the three query operations the core consumes. -/
structure InfluxQuery where
  get_max_mem : String → Option ℚ
  get_avg_cpu : String → Option ℚ
  get_lustre_jobstats : String → NestedData

namespace Memory

/-- `memory.py::SEARCH_WINDOW`. -/
def SEARCH_WINDOW : String := "7d"

/-- `memory.py::get_max_mem`.  The InfluxDB `query` collaborator is
abstracted by its result: the list of values delivered for the
`last()`-sample query over the `SEARCH_WINDOW` range (`job_results`,
whose head is `job_results[0].records[0].get_value()`).  If the query
returned no table the function returns `None`, otherwise the first
value converted from MB to bytes. -/
def get_max_mem (job_results : List ℚ) : Option ℚ :=
  if job_results.length > 0 then
    some (job_results.head! * 1024 ^ 2)
  else
    none

/-- `memory.py::get_req_mem`.  `sacct_data["req_mem"]` after the
`bytesize` conversion (a collaborator in `utils.py`) is `req_mem`;
`int(sacct_data["req_nodes"])` is `req_nodes`.  The division
`req_mem / int(sacct_data["req_nodes"])` raises `ZeroDivisionError`
when `req_nodes` is 0, modelled as `Except.error ()`. -/
def get_req_mem (req_mem : ℚ) (req_nodes : ℤ) : Except Unit ℚ :=
  if req_nodes = 0 then
    Except.error ()
  else
    Except.ok (req_mem / (req_nodes : ℚ))

end Memory

namespace JobSummary

/-- `JobSummary.get_req_mem_bytes`: `self.db_data.memory` (MB) and
`self.db_data.num_nodes` from the accounting database. -/
def get_req_mem_bytes (memory : ℚ) (num_nodes : ℕ) : ℚ :=
  if num_nodes = 0 then
    0
  else
    (memory / (num_nodes : ℚ)) * 1024 ^ 2

/-- `JobSummary.get_max_mem_bytes`: `finished` is `self.finished`,
`max_resident_memory` is `self.db_data.stats.max_resident_memory`. -/
def get_max_mem_bytes (finished : Bool) (max_resident_memory : ℚ)
    (influxquery : Option InfluxQuery) (influxid : String) : Option ℚ :=
  if finished then
    some max_resident_memory
  else
    match influxquery with
    | some q => q.get_max_mem influxid
    | none => none

/-- `JobSummary.get_user_cpu_percentage`: `elapsed_cpu_time` is
`self.db_data.stats.elapsed_cpu_time`; `step_user_cpu_times` lists
`step.stats.user_cpu_time` over `self.db_data.steps.values()`. -/
def get_user_cpu_percentage (finished : Bool) (elapsed_cpu_time : ℚ)
    (step_user_cpu_times : List ℚ)
    (influxquery : Option InfluxQuery) (influxid : String) : Option ℚ :=
  if finished then
    if elapsed_cpu_time = 0 then
      some 0
    else
      some ((step_user_cpu_times.foldl (· + ·) 0) / elapsed_cpu_time * 100)
  else
    match influxquery with
    | some q => q.get_avg_cpu influxid
    | none => none

/-- The nested dict access `data[fs][server][field]["value"]`, `none`
when a `KeyError` would be raised at any of the four levels. -/
def resolve_value (data : NestedData) (fs server field : String) :
    Option (List ℚ) :=
  (((alookup data fs).bind (fun d => alookup d server)).bind
      (fun d => alookup d field)).bind (fun d => alookup d "value")

/-- `get_last_value` (inner function of `JobSummary.get_lustre_stats`):
`data[fs][server][field]["value"][-1]`, with any `KeyError` caught and
turned into 0; `[-1]` on an empty list raises `IndexError`, which is not
caught (`Except.error ()`). -/
def get_last_value (data : NestedData) (fs server field : String) :
    Except Unit ℚ :=
  match resolve_value data fs server field with
  | none => Except.ok 0
  | some l =>
    match l.getLast? with
    | some v => Except.ok v
    | none => Except.error ()

/-- Per-filesystem entry built by `JobSummary.get_lustre_stats`. -/
structure FsStats where
  total_read : ℚ
  total_write : ℚ
  total_iops : ℚ
deriving Repr, DecidableEq

/-- The `for fs in list(data.keys())` loop body of
`JobSummary.get_lustre_stats`, iterating over the key list. -/
def lustre_loop (data : NestedData) : List String →
    Except Unit (List (String × FsStats))
  | [] => Except.ok []
  | fs :: rest =>
    match get_last_value data fs "oss" "read_bytes" with
    | Except.error e => Except.error e
    | Except.ok r =>
      match get_last_value data fs "oss" "write_bytes" with
      | Except.error e => Except.error e
      | Except.ok w =>
        match get_last_value data fs "mds" "iops" with
        | Except.error e => Except.error e
        | Except.ok i =>
          match lustre_loop data rest with
          | Except.error e => Except.error e
          | Except.ok tail => Except.ok ((fs, ⟨r, w, i⟩) :: tail)

/-- `JobSummary.get_lustre_stats`: returns `None` when no gateway is
configured, otherwise the per-filesystem stats table built from
`influxquery.get_lustre_jobstats(influxid)`. -/
def get_lustre_stats (influxquery : Option InfluxQuery) (influxid : String) :
    Option (Except Unit (List (String × FsStats))) :=
  match influxquery with
  | none => none
  | some q =>
    let data := q.get_lustre_jobstats influxid
    some (lustre_loop data (data.map (fun p => p.1)))

/-- `JobSummary.get_warnings`, a function of the already-computed summary
fields `max_mem`, `req_mem`, `avg_cpu`.  `max_mem / req_mem` raises
`ZeroDivisionError` when `req_mem` is 0 (the guard checks only for
`None`), modelled as `Except.error ()`. -/
def get_warnings (max_mem req_mem avg_cpu : Option ℚ) :
    Except Unit (List String) :=
  let fracE : Except Unit (Option ℚ) :=
    match max_mem, req_mem with
    | some m, some r =>
      if r = 0 then Except.error () else Except.ok (some (m / r))
    | _, _ => Except.ok none
  match fracE with
  | Except.error e => Except.error e
  | Except.ok mem_usage_fraction =>
    let warnings : List String := []
    let warnings := warnings ++
      (match mem_usage_fraction with
       | some f => if f < 1/2 then ["Too much memory requested"] else []
       | none => [])
    let warnings := warnings ++
      (match avg_cpu with
       | some c => if c < 75 then ["CPU usage is low"] else []
       | none => [])
    Except.ok warnings

/-- A job record as delivered by `pyslurm.db.Jobs.load` for the array
lookup in `JobSummary.get_raw_id`: its raw id and its
`array_task_id` (Python `None` for non-array records). -/
structure DBJobRec where
  id : ℤ
  array_task_id : Option ℤ
deriving Repr, DecidableEq

/-- Python `c in s` for a single character. -/
def str_contains (s : String) (c : Char) : Bool :=
  s.data.contains c

/-- Python `str.split(sep)` for a one-character separator, on the
character list: splits at every occurrence of the separator. -/
def split_chars (c : Char) : List Char → List (List Char)
  | [] => [[]]
  | x :: xs =>
    if x = c then
      [] :: split_chars c xs
    else
      match split_chars c xs with
      | [] => [[x]]
      | y :: ys => (x :: y) :: ys

/-- Python `str.split(sep)` returning strings. -/
def py_split (s : String) (c : Char) : List String :=
  (split_chars c s.data).map String.mk

/-- Decimal digit run to a natural number (`none` on an empty or
non-digit run). -/
def digits_to_nat : List Char → Option ℕ
  | [] => none
  | cs =>
    cs.foldl
      (fun acc c =>
        match acc with
        | none => none
        | some n => if c.isDigit then some (n * 10 + (c.toNat - 48)) else none)
      (some 0)

/-- Python `int(s)` on a canonical decimal string: an optional sign
followed by at least one digit; anything else raises `ValueError`
(`none`). -/
def py_int (s : String) : Option ℤ :=
  match s.data with
  | '-' :: rest => (digits_to_nat rest).map (fun n => -(n : ℤ))
  | '+' :: rest => (digits_to_nat rest).map (fun n => (n : ℤ))
  | cs => (digits_to_nat cs).map (fun n => (n : ℤ))

/-- The `for job in jobs.values()` loop of `JobSummary.get_raw_id`:
`raw_id` starts as `None` and is overwritten by each record whose
`array_task_id` equals the parsed task id (so the last match wins). -/
def scan_array_tasks (jobs : List DBJobRec) (t : ℤ) : Option ℤ :=
  jobs.foldl
    (fun raw_id job => if job.array_task_id = some t then some job.id else raw_id)
    none

/-- `JobSummary.get_raw_id`.  `load_jobs a` abstracts
`pyslurm.db.Jobs.load(JobFilter(ids=[a])).values()`.  Python `int(s)`
is modelled by `String.toInt?` (a non-numeric string raises
`ValueError`); a `split` that does not yield exactly two parts raises
`ValueError` at the tuple unpacking; the final `raise KeyError` is the
"not found" error. -/
def get_raw_id (job_id : String) (load_jobs : String → List DBJobRec) :
    Except String ℤ :=
  let raw_id : Except String (Option ℤ) :=
    if str_contains job_id '_' then
      match py_split job_id '_' with
      | [array_id, task_id] =>
        match py_int task_id with
        | some t => Except.ok (scan_array_tasks (load_jobs array_id) t)
        | none => Except.error "ValueError"
      | _ => Except.error "ValueError"
    else if str_contains job_id '+' then
      match py_split job_id '+' with
      | [het_job_id, het_job_offset] =>
        match py_int het_job_id, py_int het_job_offset with
        | some h, some o => Except.ok (some (h + o))
        | _, _ => Except.error "ValueError"
      | _ => Except.error "ValueError"
    else if job_id.data ≠ [] ∧ job_id.data.all Char.isDigit then
      match py_int job_id with
      | some n => Except.ok (some n)
      | none => Except.ok none
    else
      Except.ok none
  match raw_id with
  | Except.error e => Except.error e
  | Except.ok none => Except.error ("Job ID " ++ job_id ++ " not found")
  | Except.ok (some r) => Except.ok r

/-- The `self.influxid` assignment in `JobSummary.__init__`:
`f"{array_id}_{array_task_id}"` when both fields are truthy (Python
truthiness of an optional integer: not `None` and not 0), else the
user-supplied job id string. -/
def influxid_of (job_id : String) (array_id array_task_id : Option ℤ) :
    String :=
  match array_id, array_task_id with
  | some a, some t =>
    if a ≠ 0 ∧ t ≠ 0 then toString a ++ "_" ++ toString t else job_id
  | _, _ => job_id

/-- Python `str.ljust`: pad on the right with spaces to the given width
(no-op when the string is already at least that wide). -/
def ljust (s : String) (width : ℕ) : String :=
  s ++ String.mk (List.replicate (width - s.length) ' ')

/-- `self.heading_width` from `JobSummary.__init__`. -/
def heading_width : ℕ := 14

/-- `JobSummary.get_mem_summary`.  The formatting collaborators
`percentage_bar` and `humansize` (from `utils.py`, outside the
repository) are parameters; `max_mem / req_mem` raises
`ZeroDivisionError` when `req_mem` is 0. -/
def get_mem_summary (max_mem req_mem : Option ℚ)
    (percentage_bar : ℚ → String) (humansize : ℚ → String) :
    Except Unit String :=
  let lineE : Except Unit String :=
    match max_mem, req_mem with
    | some m, some r =>
      if r = 0 then
        Except.error ()
      else
        Except.ok (percentage_bar (m / r) ++ " (" ++ humansize m ++
          " peak / " ++ humansize r ++ ")")
    | _, _ => Except.ok "No data available"
  match lineE with
  | Except.error e => Except.error e
  | Except.ok line => Except.ok (ljust "Memory (RAM)" heading_width ++ line)

/-- `max([len(line) for line in lines])` over a non-empty list (the
fold with base 0 agrees with Python's `max` on every non-empty list of
lengths). -/
def max_line_len (lines : List String) : ℕ :=
  lines.foldl (fun a line => max a line.length) 0

/-- The synthesized title of `JobSummary.get_full_summary`:
`f"Job Summary: {self.job_id} ({state})"`. -/
def mk_title (job_id state : String) : String :=
  "Job Summary: " ++ job_id ++ " (" ++ state ++ ")"

/-- A run of `n` dash characters. -/
def dashes (n : ℕ) : String := String.mk (List.replicate n '-')

/-- The top border of `JobSummary.get_full_summary`: the title centered
within dashes, with the extra dash appended on the right when `ndash`
is odd. -/
def title_line (max_len : ℕ) (title : String) : String :=
  let ndash := max_len - title.length
  let ldashes := dashes (ndash / 2)
  let rdashes := dashes (ndash / 2)
  let rdashes := if ndash % 2 = 1 then rdashes ++ "-" else rdashes
  "+" ++ ldashes ++ " " ++ title ++ " " ++ rdashes ++ "+"

/-- The bottom border of `JobSummary.get_full_summary`. -/
def bottom_border (max_len : ℕ) : String :=
  "+" ++ dashes (max_len + 2) ++ "+"

/-- The framing stage of `JobSummary.get_full_summary`: from the content
lines (the stripped, newline-split section text) and the job id and
state it builds the title line, the padded and bar-enclosed content
lines, and the bottom border. -/
def frame_summary (lines : List String) (job_id state : String) :
    List String :=
  let title := mk_title job_id state
  let max_len := max (max_line_len lines) title.length
  [title_line max_len title]
    ++ lines.map (fun line => "| " ++ ljust line max_len ++ " |")
    ++ [bottom_border max_len]

end JobSummary

open JobSummary

/-! ## Theorems -/

/-- **C1.** Peak memory and average CPU are sourced by one uniform rule:
a job whose state is outside the unfinished-state set reads the
historical accounting statistics; an unfinished job reads the metrics
gateway when one is configured and is `null` otherwise.  Exactly one
source is consulted per field: the finished branch is independent of
the gateway, the unfinished branch is independent of the historical
statistics. -/
theorem C1_uniform_source_selection
    (state : String) (max_resident_memory elapsed_cpu_time : ℚ)
    (step_user_cpu_times : List ℚ) (influxquery : Option InfluxQuery)
    (influxid : String) :
    (finishedOf state = true ↔ state ∉ UNFINISHED_STATES) ∧
    (finishedOf state = true →
      get_max_mem_bytes (finishedOf state) max_resident_memory
          influxquery influxid = some max_resident_memory ∧
      (∀ influxquery',
        get_user_cpu_percentage (finishedOf state) elapsed_cpu_time
            step_user_cpu_times influxquery influxid
          = get_user_cpu_percentage (finishedOf state) elapsed_cpu_time
              step_user_cpu_times influxquery' influxid)) ∧
    (finishedOf state = false → ∀ q, influxquery = some q →
      get_max_mem_bytes (finishedOf state) max_resident_memory
          influxquery influxid = q.get_max_mem influxid ∧
      get_user_cpu_percentage (finishedOf state) elapsed_cpu_time
          step_user_cpu_times influxquery influxid = q.get_avg_cpu influxid ∧
      (∀ m' e' s',
        get_max_mem_bytes (finishedOf state) m' influxquery influxid
          = get_max_mem_bytes (finishedOf state) max_resident_memory
              influxquery influxid ∧
        get_user_cpu_percentage (finishedOf state) e' s'
            influxquery influxid
          = get_user_cpu_percentage (finishedOf state) elapsed_cpu_time
              step_user_cpu_times influxquery influxid)) ∧
    (finishedOf state = false → influxquery = none →
      get_max_mem_bytes (finishedOf state) max_resident_memory
          influxquery influxid = none ∧
      get_user_cpu_percentage (finishedOf state) elapsed_cpu_time
          step_user_cpu_times influxquery influxid = none) := by
  refine ⟨?_, ?_, ?_, ?_⟩
  · simp [finishedOf]
  · intro hfin
    rw [hfin]
    exact ⟨rfl, fun _ => rfl⟩
  · intro hfin q hq
    rw [hfin, hq]
    exact ⟨rfl, rfl, fun _ _ _ => ⟨rfl, rfl⟩⟩
  · intro hfin hq
    rw [hfin, hq]
    exact ⟨rfl, rfl⟩

/-- **C2 counterexample.** The claim asserts that for node count 0 the
requested memory per node is exactly 0 and no division-by-zero fault is
raised; `memory.py::get_req_mem` (listed as a source of the claim)
divides unconditionally and raises `ZeroDivisionError` at node count 0
(requested memory 4096 bytes, `req_nodes` 0). -/
theorem C2_counterexample :
    Memory.get_req_mem 4096 0 = Except.error () ∧
    Memory.get_req_mem 4096 0 ≠ Except.ok 0 := by
  constructor
  · rfl
  · intro h
    exact absurd h (by decide)

/-- **C2 (amended).** `JobSummary.get_req_mem_bytes` computes the total
requested memory divided by the node count when the node count is
positive and exactly 0 when it is 0, never faulting;
`memory.py::get_req_mem` computes the quotient when the node count is
nonzero but raises `ZeroDivisionError` when it is 0. -/
theorem C2_req_mem_per_node (memory : ℚ) (num_nodes : ℕ)
    (req_mem : ℚ) (req_nodes : ℤ) :
    (0 < num_nodes →
      get_req_mem_bytes memory num_nodes
        = (memory * 1024 ^ 2) / (num_nodes : ℚ)) ∧
    (num_nodes = 0 → get_req_mem_bytes memory num_nodes = 0) ∧
    (req_nodes ≠ 0 →
      Memory.get_req_mem req_mem req_nodes
        = Except.ok (req_mem / (req_nodes : ℚ))) ∧
    (req_nodes = 0 → Memory.get_req_mem req_mem req_nodes
        = Except.error ()) := by
  refine ⟨?_, ?_, ?_, ?_⟩
  · intro h
    rw [get_req_mem_bytes, if_neg (Nat.pos_iff_ne_zero.mp h)]
    ring
  · intro h
    rw [get_req_mem_bytes, if_pos h]
  · intro h
    rw [Memory.get_req_mem, if_neg h]
  · intro h
    rw [Memory.get_req_mem, if_pos h]

/-- Witness for C2: 16384 MB over 2 nodes gives 8192 MB per node in
bytes; node count 0 gives 0; `memory.py` succeeds at 4 nodes and faults
at 0 nodes. -/
theorem C2_req_mem_per_node_witness :
    get_req_mem_bytes 16384 2 = (16384 * 1024 ^ 2) / (2 : ℚ) ∧
    get_req_mem_bytes 16384 0 = 0 ∧
    Memory.get_req_mem 4096 4 = Except.ok ((4096 : ℚ) / (4 : ℚ)) ∧
    Memory.get_req_mem 4096 0 = Except.error () :=
  ⟨(C2_req_mem_per_node 16384 2 4096 4).1 (by decide),
   (C2_req_mem_per_node 16384 0 4096 4).2.1 rfl,
   (C2_req_mem_per_node 16384 2 4096 4).2.2.1 (by decide),
   (C2_req_mem_per_node 16384 2 4096 0).2.2.2 rfl⟩

/-- **C3.** For a finished job: zero aggregate elapsed CPU time yields
an average CPU percentage of 0 with no fault; otherwise the result is
the sum of the per-step user CPU times divided by the aggregate elapsed
CPU time, times 100; and the value is not clamped (a concrete run
exceeds 100). -/
theorem C3_avg_cpu_finished (elapsed_cpu_time : ℚ) (steps : List ℚ)
    (influxquery : Option InfluxQuery) (influxid : String) :
    (elapsed_cpu_time = 0 →
      get_user_cpu_percentage true elapsed_cpu_time steps
        influxquery influxid = some 0) ∧
    (elapsed_cpu_time ≠ 0 →
      get_user_cpu_percentage true elapsed_cpu_time steps
          influxquery influxid
        = some (steps.sum / elapsed_cpu_time * 100)) ∧
    (get_user_cpu_percentage true 100 [150] influxquery influxid
        = some 150 ∧ (100 : ℚ) < 150) := by
  refine ⟨?_, ?_, ?_, ?_⟩
  · intro h
    rw [get_user_cpu_percentage.eq_def, if_pos rfl, if_pos h]
  · intro h
    rw [get_user_cpu_percentage.eq_def, if_pos rfl, if_neg h]
    rw [List.sum_eq_foldl]
  · norm_num [get_user_cpu_percentage]
  · norm_num

/-- Shared characterization of `get_warnings` away from the
division-by-zero fault: the run succeeds, each warning is present
exactly under its condition, and when both fire the memory warning
comes first. -/
theorem get_warnings_characterization (max_mem req_mem avg_cpu : Option ℚ)
    (h : req_mem ≠ some 0 ∨ max_mem = none) :
    ∃ l, get_warnings max_mem req_mem avg_cpu = Except.ok l ∧
      ("Too much memory requested" ∈ l ↔
        ∃ m r, max_mem = some m ∧ req_mem = some r ∧ m / r < 1/2) ∧
      ("CPU usage is low" ∈ l ↔ ∃ c, avg_cpu = some c ∧ c < 75) ∧
      ((∃ m r, max_mem = some m ∧ req_mem = some r ∧ m / r < 1/2) →
        (∃ c, avg_cpu = some c ∧ c < 75) →
        l = ["Too much memory requested", "CPU usage is low"]) := by
  rcases max_mem with _ | m <;> rcases req_mem with _ | r <;>
    rcases avg_cpu with _ | c
  · exact ⟨[], by simp [get_warnings], by simp, by simp, by simp⟩
  · by_cases hc : c < 75
    · exact ⟨["CPU usage is low"], by simp [get_warnings, hc],
        by simp, by simp [hc], by simp⟩
    · exact ⟨[], by simp [get_warnings, hc], by simp, by simp [hc], by simp⟩
  · exact ⟨[], by simp [get_warnings], by simp, by simp, by simp⟩
  · by_cases hc : c < 75
    · exact ⟨["CPU usage is low"], by simp [get_warnings, hc],
        by simp, by simp [hc], by simp⟩
    · exact ⟨[], by simp [get_warnings, hc], by simp, by simp [hc], by simp⟩
  · exact ⟨[], by simp [get_warnings], by simp, by simp, by simp⟩
  · by_cases hc : c < 75
    · exact ⟨["CPU usage is low"], by simp [get_warnings, hc],
        by simp, by simp [hc], by simp⟩
    · exact ⟨[], by simp [get_warnings, hc], by simp, by simp [hc], by simp⟩
  · have hr : r ≠ 0 := by
      rcases h with h | h
      · exact fun hr0 => h (by rw [hr0])
      · exact absurd h (by simp)
    by_cases hm : m / r < (2:ℚ)⁻¹
    · exact ⟨["Too much memory requested"], by simp [get_warnings, hr, hm],
        by simp [hm], by simp, by simp⟩
    · exact ⟨[], by simp [get_warnings, hr, hm], by simp [hm], by simp,
        by simp [hm]⟩
  · have hr : r ≠ 0 := by
      rcases h with h | h
      · exact fun hr0 => h (by rw [hr0])
      · exact absurd h (by simp)
    by_cases hm : m / r < (2:ℚ)⁻¹ <;> by_cases hc : c < 75
    · exact ⟨["Too much memory requested", "CPU usage is low"],
        by simp [get_warnings, hr, hm, hc], by simp [hm],
        by simp [hc], by simp⟩
    · exact ⟨["Too much memory requested"],
        by simp [get_warnings, hr, hm, hc], by simp [hm],
        by simp [hc], by simp [hc]⟩
    · exact ⟨["CPU usage is low"],
        by simp [get_warnings, hr, hm, hc], by simp [hm],
        by simp [hc], by simp [hm]⟩
    · exact ⟨[], by simp [get_warnings, hr, hm, hc], by simp [hm],
        by simp [hc], by simp [hm]⟩

/-- **C4.** In every computed warnings list (computation succeeds away
from the unguarded `req_mem = 0` division), "Too much memory requested"
is present iff peak and requested memory are both known and their ratio
is below 1/2; at a ratio of exactly 1/2 it is absent, at 0.4999 it is
present. -/
theorem C4_mem_warning_iff (max_mem req_mem avg_cpu : Option ℚ)
    (h : req_mem ≠ some 0 ∨ max_mem = none) :
    (∃ l, get_warnings max_mem req_mem avg_cpu = Except.ok l ∧
      ("Too much memory requested" ∈ l ↔
        ∃ m r, max_mem = some m ∧ req_mem = some r ∧ m / r < 1/2)) ∧
    get_warnings (some 1) (some 2) none = Except.ok [] ∧
    get_warnings (some (4999/10000)) (some 1) none
      = Except.ok ["Too much memory requested"] := by
  refine ⟨?_, ?_, ?_⟩
  · obtain ⟨l, hok, hmem, -, -⟩ :=
      get_warnings_characterization max_mem req_mem avg_cpu h
    exact ⟨l, hok, hmem⟩
  · norm_num [get_warnings]
  · norm_num [get_warnings]

/-- Witness for C4 at peak 4999, requested 10000 (ratio 0.4999). -/
theorem C4_mem_warning_iff_witness :
    (∃ l, get_warnings (some 4999) (some 10000) none = Except.ok l ∧
      ("Too much memory requested" ∈ l ↔
        ∃ m r, (some (4999:ℚ)) = some m ∧ (some (10000:ℚ)) = some r ∧
          m / r < 1/2)) ∧
    get_warnings (some 1) (some 2) none = Except.ok [] ∧
    get_warnings (some (4999/10000)) (some 1) none
      = Except.ok ["Too much memory requested"] :=
  C4_mem_warning_iff (some 4999) (some 10000) none (Or.inl (by decide))

/-- **C5.** In every computed warnings list, "CPU usage is low" is
present iff the average CPU percentage is known and below 75; at
exactly 75 it is absent, at 74.9 it is present; the condition is
independent of the memory fields, and when both warnings fire the
memory warning comes first. -/
theorem C5_cpu_warning_iff (max_mem req_mem avg_cpu : Option ℚ)
    (h : req_mem ≠ some 0 ∨ max_mem = none) :
    (∃ l, get_warnings max_mem req_mem avg_cpu = Except.ok l ∧
      ("CPU usage is low" ∈ l ↔ ∃ c, avg_cpu = some c ∧ c < 75) ∧
      ((∃ m r, max_mem = some m ∧ req_mem = some r ∧ m / r < 1/2) →
        (∃ c, avg_cpu = some c ∧ c < 75) →
        l = ["Too much memory requested", "CPU usage is low"])) ∧
    get_warnings none none (some 75) = Except.ok [] ∧
    get_warnings none none (some (749/10))
      = Except.ok ["CPU usage is low"] := by
  refine ⟨?_, ?_, ?_⟩
  · obtain ⟨l, hok, -, hcpu, horder⟩ :=
      get_warnings_characterization max_mem req_mem avg_cpu h
    exact ⟨l, hok, hcpu, horder⟩
  · norm_num [get_warnings]
  · norm_num [get_warnings]

/-- Witness for C5 at average CPU 50 with both memory fields known. -/
theorem C5_cpu_warning_iff_witness :
    (∃ l, get_warnings (some 1) (some 4) (some 50) = Except.ok l ∧
      ("CPU usage is low" ∈ l ↔ ∃ c, (some (50:ℚ)) = some c ∧ c < 75) ∧
      ((∃ m r, (some (1:ℚ)) = some m ∧ (some (4:ℚ)) = some r ∧
          m / r < 1/2) →
        (∃ c, (some (50:ℚ)) = some c ∧ c < 75) →
        l = ["Too much memory requested", "CPU usage is low"])) ∧
    get_warnings none none (some 75) = Except.ok [] ∧
    get_warnings none none (some (749/10))
      = Except.ok ["CPU usage is low"] :=
  C5_cpu_warning_iff (some 1) (some 4) (some 50) (Or.inl (by decide))

/-- **C6.** For an unfinished job the peak-memory field is `null`, not
zero, when no data is available: with no gateway configured it is
`null`, and with a gateway whose 7-day last-sample query returns no
sample (`memory.py::get_max_mem` on an empty result set) it is `null`
and in particular never zero. -/
theorem C6_unfinished_peak_null (max_resident_memory : ℚ)
    (influxid : String) (q : InfluxQuery)
    (hq : q.get_max_mem influxid = Memory.get_max_mem []) :
    Memory.get_max_mem [] = none ∧
    get_max_mem_bytes false max_resident_memory none influxid = none ∧
    get_max_mem_bytes false max_resident_memory (some q) influxid
      = none ∧
    get_max_mem_bytes false max_resident_memory (some q) influxid
      ≠ some 0 := by
  refine ⟨rfl, rfl, ?_, ?_⟩
  · show q.get_max_mem influxid = none
    rw [hq]
    rfl
  · show q.get_max_mem influxid ≠ some 0
    rw [hq]
    intro hc
    exact Option.noConfusion hc

/-- Witness for C6 with a concrete gateway returning no samples. -/
theorem C6_unfinished_peak_null_witness :
    Memory.get_max_mem [] = none ∧
    get_max_mem_bytes false 5
      none "123" = none ∧
    get_max_mem_bytes false 5
      (some ⟨fun _ => Memory.get_max_mem [], fun _ => none, fun _ => []⟩)
      "123" = none ∧
    get_max_mem_bytes false 5
      (some ⟨fun _ => Memory.get_max_mem [], fun _ => none, fun _ => []⟩)
      "123" ≠ some 0 :=
  C6_unfinished_peak_null 5 "123"
    ⟨fun _ => Memory.get_max_mem [], fun _ => none, fun _ => []⟩ rfl

/-- The array scan returns `none` exactly when no loaded record's
`array_task_id` equals the parsed task id (for any starting
accumulator equal to `none`). -/
theorem scan_fold_eq_none (jobs : List DBJobRec) (t : ℤ) (acc : Option ℤ) :
    jobs.foldl (fun raw_id job =>
        if job.array_task_id = some t then some job.id else raw_id) acc
      = none ↔
      acc = none ∧ ∀ job ∈ jobs, job.array_task_id ≠ some t := by
  induction jobs generalizing acc with
  | nil => simp
  | cons j rest ih =>
    simp only [List.foldl_cons]
    by_cases hj : j.array_task_id = some t
    · rw [if_pos hj, ih]
      simp [hj]
    · rw [if_neg hj, ih]
      simp [hj]

/-- When the array scan returns an id, some loaded record matches the
task id and carries that id (or it was already in the accumulator). -/
theorem scan_fold_eq_some (jobs : List DBJobRec) (t : ℤ) (acc : Option ℤ)
    (r : ℤ) :
    jobs.foldl (fun raw_id job =>
        if job.array_task_id = some t then some job.id else raw_id) acc
      = some r →
      (∃ job ∈ jobs, job.array_task_id = some t ∧ job.id = r) ∨
        acc = some r := by
  induction jobs generalizing acc with
  | nil =>
    intro h
    exact Or.inr h
  | cons j rest ih =>
    intro h
    simp only [List.foldl_cons] at h
    by_cases hj : j.array_task_id = some t
    · rw [if_pos hj] at h
      rcases ih _ h with ⟨job, hmem, hmatch, hid⟩ | hacc
      · exact Or.inl ⟨job, List.mem_cons_of_mem _ hmem, hmatch, hid⟩
      · exact Or.inl ⟨j, List.mem_cons_self _ _, hj, Option.some.inj hacc⟩
    · rw [if_neg hj] at h
      rcases ih _ h with ⟨job, hmem, hmatch, hid⟩ | hacc
      · exact Or.inl ⟨job, List.mem_cons_of_mem _ hmem, hmatch, hid⟩
      · exact Or.inr hacc

/-- **C7.** For an array-form identifier `A_T`, `get_raw_id` queries the
accounting database for the jobs sharing array base `A` and scans them
for a record whose `array_task_id` equals `T`, returning that record's
raw id; when no record matches, it fails with the job-not-found error.
The canonical metrics id of such a job is the string `A_T`. -/
theorem C7_array_resolution (job_id array_id task_id : String) (t : ℤ)
    (load_jobs : String → List DBJobRec)
    (hcontains : str_contains job_id '_' = true)
    (hsplit : py_split job_id '_' = [array_id, task_id])
    (ht : py_int task_id = some t) :
    (∀ r, scan_array_tasks (load_jobs array_id) t = some r →
      get_raw_id job_id load_jobs = Except.ok r ∧
      ∃ job ∈ load_jobs array_id,
        job.array_task_id = some t ∧ job.id = r) ∧
    ((∀ job ∈ load_jobs array_id, job.array_task_id ≠ some t) →
      get_raw_id job_id load_jobs
        = Except.error ("Job ID " ++ job_id ++ " not found")) ∧
    (∀ a ti : ℤ,
      influxid_of (toString a ++ "_" ++ toString ti) (some a) (some ti)
        = toString a ++ "_" ++ toString ti) := by
  refine ⟨?_, ?_, ?_⟩
  · intro r hr
    constructor
    · simp only [get_raw_id, hcontains, hsplit, ht, if_pos, hr]
    · rcases scan_fold_eq_some (load_jobs array_id) t none r hr with h | h
      · exact h
      · exact absurd h (by simp)
  · intro hnone
    have hscan : scan_array_tasks (load_jobs array_id) t = none :=
      (scan_fold_eq_none (load_jobs array_id) t none).mpr ⟨rfl, hnone⟩
    simp only [get_raw_id, hcontains, hsplit, ht, if_pos, hscan]
  · intro a ti
    rw [influxid_of]
    split
    · rfl
    · rfl

/-- Witness for C7: identifier `"123_4"` over a database holding one
job of array base 123 with task id 4 and raw id 7. -/
theorem C7_array_resolution_witness :
    (∀ r, scan_array_tasks
          ((fun _ => [⟨7, some 4⟩]) "123" : List DBJobRec) 4 = some r →
      get_raw_id "123_4" (fun _ => [⟨7, some 4⟩]) = Except.ok r ∧
      ∃ job ∈ ((fun _ => [⟨7, some 4⟩]) "123" : List DBJobRec),
        job.array_task_id = some 4 ∧ job.id = r) ∧
    ((∀ job ∈ ((fun _ => [⟨7, some 4⟩]) "123" : List DBJobRec),
        job.array_task_id ≠ some 4) →
      get_raw_id "123_4" (fun _ => [⟨7, some 4⟩])
        = Except.error ("Job ID " ++ "123_4" ++ " not found")) ∧
    (∀ a ti : ℤ,
      influxid_of (toString a ++ "_" ++ toString ti) (some a) (some ti)
        = toString a ++ "_" ++ toString ti) :=
  C7_array_resolution "123_4" "123" "4" 4 (fun _ => [⟨7, some 4⟩])
    (by decide) (by decide) (by decide)

/-- A successful run of the filesystem-stats loop visits exactly the
given keys and fills each entry from the three `get_last_value` reads
at `(oss, read_bytes)`, `(oss, write_bytes)` and `(mds, iops)`. -/
theorem lustre_loop_ok_spec (data : NestedData) (keys : List String)
    (stats : List (String × FsStats))
    (h : lustre_loop data keys = Except.ok stats) :
    stats.map (fun p => p.1) = keys ∧
    ∀ p ∈ stats,
      get_last_value data p.1 "oss" "read_bytes"
        = Except.ok p.2.total_read ∧
      get_last_value data p.1 "oss" "write_bytes"
        = Except.ok p.2.total_write ∧
      get_last_value data p.1 "mds" "iops" = Except.ok p.2.total_iops := by
  induction keys generalizing stats with
  | nil =>
    simp only [lustre_loop] at h
    injection h with h
    subst h
    simp
  | cons fs rest ih =>
    simp only [lustre_loop] at h
    cases hr : get_last_value data fs "oss" "read_bytes" with
    | error e => rw [hr] at h; exact absurd h (by simp)
    | ok r =>
      rw [hr] at h
      cases hw : get_last_value data fs "oss" "write_bytes" with
      | error e => rw [hw] at h; exact absurd h (by simp)
      | ok w =>
        rw [hw] at h
        cases hi : get_last_value data fs "mds" "iops" with
        | error e => rw [hi] at h; exact absurd h (by simp)
        | ok i =>
          rw [hi] at h
          cases htail : lustre_loop data rest with
          | error e => rw [htail] at h; exact absurd h (by simp)
          | ok tail =>
            rw [htail] at h
            injection h with h
            subst h
            obtain ⟨hkeys, hall⟩ := ih tail htail
            refine ⟨by simp [hkeys], ?_⟩
            intro p hp
            rcases List.mem_cons.mp hp with rfl | hp'
            · exact ⟨hr, hw, hi⟩
            · exact hall p hp'

/-- **C8.** For a filesystem-stats result, a missing key at any of the
four levels of the nested structure makes `get_last_value` yield 0 (not
an error); a fully-present field yields the last sample of its value
sequence; and a successful run of the stats loop over the result's
filesystems fills every entry's read-bytes, write-bytes and IOPS fields
from exactly those reads. -/
theorem C8_lustre_stats_last_sample (data : NestedData)
    (fs server field : String) :
    (resolve_value data fs server field = none ↔
      alookup data fs = none ∨
      ∃ sm, alookup data fs = some sm ∧
        (alookup sm server = none ∨
        ∃ fm, alookup sm server = some fm ∧
          (alookup fm field = none ∨
          ∃ vm, alookup fm field = some vm ∧
            alookup vm "value" = none))) ∧
    (resolve_value data fs server field = none →
      get_last_value data fs server field = Except.ok 0) ∧
    (∀ l v, resolve_value data fs server field = some l →
      l.getLast? = some v →
      get_last_value data fs server field = Except.ok v) ∧
    (∀ stats, lustre_loop data (data.map (fun p => p.1))
        = Except.ok stats →
      stats.map (fun p => p.1) = data.map (fun p => p.1) ∧
      ∀ p ∈ stats,
        get_last_value data p.1 "oss" "read_bytes"
          = Except.ok p.2.total_read ∧
        get_last_value data p.1 "oss" "write_bytes"
          = Except.ok p.2.total_write ∧
        get_last_value data p.1 "mds" "iops"
          = Except.ok p.2.total_iops) := by
  refine ⟨?_, ?_, ?_, ?_⟩
  · simp only [resolve_value]
    cases h1 : alookup data fs with
    | none => simp [h1]
    | some sm =>
      cases h2 : alookup sm server with
      | none => simp [h1, h2]
      | some fm =>
        cases h3 : alookup fm field with
        | none => simp [h1, h2, h3]
        | some vm => simp [h1, h2, h3]
  · intro h
    simp only [get_last_value.eq_def, h]
  · intro l v hl hv
    simp only [get_last_value.eq_def, hl, hv]
  · intro stats h
    exact lustre_loop_ok_spec data _ stats h

/-- The fold computing the longest line length dominates its
accumulator and every member's length. -/
theorem max_line_len_fold_ge (lines : List String) (acc : ℕ) :
    acc ≤ lines.foldl (fun a line => max a line.length) acc ∧
    ∀ line ∈ lines,
      line.length ≤ lines.foldl (fun a line => max a line.length) acc := by
  induction lines generalizing acc with
  | nil => simp
  | cons l rest ih =>
    refine ⟨?_, ?_⟩
    · exact le_trans (le_max_left _ _) (ih (max acc l.length)).1
    · intro line hmem
      rcases List.mem_cons.mp hmem with rfl | hmem'
      · exact le_trans (le_max_right _ _) (ih (max acc line.length)).1
      · exact (ih (max acc l.length)).2 line hmem'

/-- Every line is at most the computed maximum line length. -/
theorem le_max_line_len (lines : List String) (line : String)
    (h : line ∈ lines) : line.length ≤ max_line_len lines :=
  (max_line_len_fold_ge lines 0).2 line h

/-- `dashes n` has length `n`. -/
theorem dashes_length (n : ℕ) : (dashes n).length = n := by
  simp [dashes, String.length]

/-- `ljust` pads to the width, leaving longer strings alone. -/
theorem ljust_length (s : String) (w : ℕ) :
    (ljust s w).length = max s.length w := by
  rw [ljust, String.length_append]
  simp only [String.length]
  simp only [List.length_replicate]
  omega

/-- Appending one dash extends a dash run by one. -/
theorem dashes_succ (n : ℕ) : dashes n ++ "-" = dashes (n + 1) := by
  apply String.ext
  rw [String.data_append]
  show List.replicate n '-' ++ ['-'] = List.replicate (n + 1) '-'
  exact (List.replicate_succ' n '-').symm

/-- The top border has total length `max_len + 4` whenever the title
fits within `max_len`. -/
theorem title_line_length (max_len : ℕ) (title : String)
    (h : title.length ≤ max_len) :
    (title_line max_len title).length = max_len + 4 := by
  have h1 : ("+" : String).length = 1 := rfl
  have h2 : (" " : String).length = 1 := rfl
  have h3 : ("-" : String).length = 1 := rfl
  simp only [title_line]
  by_cases hodd : (max_len - title.length) % 2 = 1
  · rw [if_pos hodd]
    simp only [String.length_append, dashes_length, h1, h2, h3]
    omega
  · rw [if_neg hodd]
    simp only [String.length_append, dashes_length, h1, h2, h3]
    omega

/-- The bottom border has total length `max_len + 4`. -/
theorem bottom_border_length (max_len : ℕ) :
    (bottom_border max_len).length = max_len + 4 := by
  have h1 : ("+" : String).length = 1 := rfl
  simp only [bottom_border, String.length_append, dashes_length, h1]
  omega

/-- **C9.** Every line of the framed report — title line, padded
content lines, bottom border — has length `max_len + 4`, where
`max_len` is the maximum of the longest content line and the length of
the synthesized title "Job Summary: {id} ({state})"; the title line
centers the title within dashes with the extra dash on the right
exactly when the dash padding is odd; and the bottom border has the
same total length as the top border. -/
theorem C9_report_framing (lines : List String) (job_id state : String)
    (hne : lines ≠ []) :
    (∀ s ∈ frame_summary lines job_id state,
      s.length
        = max (max_line_len lines) (mk_title job_id state).length + 4) ∧
    (∃ a b,
      title_line (max (max_line_len lines) (mk_title job_id state).length)
          (mk_title job_id state)
        = "+" ++ dashes a ++ " " ++ mk_title job_id state ++ " "
            ++ dashes b ++ "+" ∧
      a + b = max (max_line_len lines) (mk_title job_id state).length
          - (mk_title job_id state).length ∧
      (b = a ∨ b = a + 1) ∧
      (b = a + 1 ↔
        (max (max_line_len lines) (mk_title job_id state).length
          - (mk_title job_id state).length) % 2 = 1)) ∧
    (bottom_border
        (max (max_line_len lines) (mk_title job_id state).length)).length
      = (title_line
          (max (max_line_len lines) (mk_title job_id state).length)
          (mk_title job_id state)).length := by
  have htle : (mk_title job_id state).length
      ≤ max (max_line_len lines) (mk_title job_id state).length :=
    le_max_right _ _
  refine ⟨?_, ?_, ?_⟩
  · intro s hs
    simp only [frame_summary, List.append_assoc, List.mem_append,
      List.mem_map, List.mem_singleton, List.mem_cons,
      List.not_mem_nil, or_false] at hs
    rcases hs with hs | ⟨line, hline, rfl⟩ | hs
    · rw [hs]
      exact title_line_length _ _ htle
    · have hlle : line.length ≤ max_line_len lines :=
        le_max_line_len lines line hline
      have h1 : ("| " : String).length = 2 := rfl
      have h2 : (" |" : String).length = 2 := rfl
      rw [String.length_append, String.length_append, h1, h2,
        ljust_length]
      omega
    · rw [hs]
      exact bottom_border_length _
  · by_cases hodd :
      ((max (max_line_len lines) (mk_title job_id state).length
        - (mk_title job_id state).length)) % 2 = 1
    · refine ⟨(max (max_line_len lines) (mk_title job_id state).length
          - (mk_title job_id state).length) / 2,
        (max (max_line_len lines) (mk_title job_id state).length
          - (mk_title job_id state).length) / 2 + 1, ?_, ?_, ?_, ?_⟩
      · simp only [title_line, if_pos hodd, ← dashes_succ]
      · omega
      · exact Or.inr rfl
      · simp [hodd]
    · refine ⟨(max (max_line_len lines) (mk_title job_id state).length
          - (mk_title job_id state).length) / 2,
        (max (max_line_len lines) (mk_title job_id state).length
          - (mk_title job_id state).length) / 2, ?_, ?_, ?_, ?_⟩
      · simp only [title_line, if_neg hodd]
      · omega
      · exact Or.inl rfl
      · simp [hodd]
  · rw [bottom_border_length, title_line_length _ _ htle]

/-- Witness for C9 on the one-line report body `["abc"]` with job id
"1" and state "X". -/
theorem C9_report_framing_witness :
    (∀ s ∈ frame_summary ["abc"] "1" "X",
      s.length
        = max (max_line_len ["abc"]) (mk_title "1" "X").length + 4) ∧
    (∃ a b,
      title_line (max (max_line_len ["abc"]) (mk_title "1" "X").length)
          (mk_title "1" "X")
        = "+" ++ dashes a ++ " " ++ mk_title "1" "X" ++ " "
            ++ dashes b ++ "+" ∧
      a + b = max (max_line_len ["abc"]) (mk_title "1" "X").length
          - (mk_title "1" "X").length ∧
      (b = a ∨ b = a + 1) ∧
      (b = a + 1 ↔
        (max (max_line_len ["abc"]) (mk_title "1" "X").length
          - (mk_title "1" "X").length) % 2 = 1)) ∧
    (bottom_border
        (max (max_line_len ["abc"]) (mk_title "1" "X").length)).length
      = (title_line
          (max (max_line_len ["abc"]) (mk_title "1" "X").length)
          (mk_title "1" "X")).length :=
  C9_report_framing ["abc"] "1" "X" (by decide)

/-- **C10.** Warning generation and the memory-line rendering are
fault-free whenever the requested memory per node is nonzero or the
peak memory is unknown: the guard before the division checks only that
both fields are non-null, the division faults at `req_mem = some 0`,
and a job with node count 0 has requested memory 0 (not null). -/
theorem C10_division_guard (max_mem req_mem avg_cpu : Option ℚ)
    (percentage_bar humansize : ℚ → String)
    (h : req_mem ≠ some 0 ∨ max_mem = none) :
    (∃ l, get_warnings max_mem req_mem avg_cpu = Except.ok l) ∧
    (∃ s, get_mem_summary max_mem req_mem percentage_bar humansize
      = Except.ok s) ∧
    get_warnings (some 1) (some 0) none = Except.error () ∧
    get_mem_summary (some 1) (some 0) percentage_bar humansize
      = Except.error () ∧
    (∀ memory : ℚ, get_req_mem_bytes memory 0 = 0) := by
  refine ⟨?_, ?_, ?_, ?_, ?_⟩
  · obtain ⟨l, hok, -, -, -⟩ :=
      get_warnings_characterization max_mem req_mem avg_cpu h
    exact ⟨l, hok⟩
  · rcases max_mem with _ | m <;> rcases req_mem with _ | r
    · exact ⟨_, rfl⟩
    · exact ⟨_, rfl⟩
    · exact ⟨_, rfl⟩
    · have hr : r ≠ 0 := by
        rcases h with h | h
        · exact fun hr0 => h (by rw [hr0])
        · exact absurd h (by simp)
      exact ⟨ljust "Memory (RAM)" heading_width ++
          (percentage_bar (m / r) ++ " (" ++ humansize m ++ " peak / "
            ++ humansize r ++ ")"),
        by simp only [get_mem_summary, if_neg hr]⟩
  · simp [get_warnings]
  · simp [get_mem_summary]
  · intro memory
    rw [get_req_mem_bytes, if_pos rfl]

/-- Witness for C10 with both memory fields known and requested memory
nonzero. -/
theorem C10_division_guard_witness :
    (∃ l, get_warnings (some 1) (some 4) (some 80) = Except.ok l) ∧
    (∃ s, get_mem_summary (some 1) (some 4)
        (fun _ => "bar") (fun _ => "1B") = Except.ok s) ∧
    get_warnings (some 1) (some 0) none = Except.error () ∧
    get_mem_summary (some 1) (some 0) (fun _ => "bar") (fun _ => "1B")
      = Except.error () ∧
    (∀ memory : ℚ, get_req_mem_bytes memory 0 = 0) :=
  C10_division_guard (some 1) (some 4) (some 80)
    (fun _ => "bar") (fun _ => "1B") (Or.inl (by decide))
